import Mathlib

/-!
Verification of the NetRecon rate limiter (`src/services/NetRecon/rate_limiter.py`)
and the GeoIP resolver (`src/api/geoip_resolver.py`) against their specification.

The external collaborators (the Redis client library, the `ipaddress` parser and
the GeoLite2 database readers) are modelled as oracles: each call a store or
database operation can make is represented by a parameter describing the outcome
of that call (a returned value, or a raised exception).  The Python functions
themselves are embedded shallowly and faithfully, branch by branch.
-/

namespace NetRecon

/-- Outcome of a single call into the Redis client: either the call returns a
value, or it raises an exception (any `Exception` in the Python sense). -/
inductive Res (α : Type) where
  | ok (a : α)
  | exn
deriving DecidableEq, Repr

/-- `Res.isExn r` is true when the modelled call raises. -/
def Res.isExn {α : Type} : Res α → Bool
  | .ok _ => false
  | .exn => true

/-- The configuration values `check_rate_limit` and `get_redis_client` read from
`config.settings`.  The limit and window are Python ints, so `Int`. -/
structure Settings where
  rate_limit_enabled : Bool
  rate_limit_requests_per_window : Int
  rate_limit_window_seconds : Int
  redis_url : String
deriving DecidableEq, Repr

/-- Embedding of the `RateLimitResult` container: `allowed`, optional
`retry_after`, optional `remaining` (Python `None` is `none`). -/
structure RateLimitResult where
  allowed : Bool
  retry_after : Option Int
  remaining : Option Int
deriving DecidableEq, Repr

/-- The fail-open result `RateLimitResult(allowed=True, retry_after=None,
remaining=None)` returned on the disabled, unavailable and error paths. -/
def failOpenResult : RateLimitResult :=
  { allowed := true, retry_after := none, remaining := none }

/-- Outcome of one attempt to establish the Redis connection and ping it
(`redis.Redis.from_url` followed by `ping`): success or any raised exception. -/
inductive ConnOutcome where
  | success
  | failure
deriving DecidableEq, Repr

/-- What `get_redis_client` produces: the new value of the module-global
`_redis_client`, the returned client, and whether this call actually attempted
a connection (entered the `try` block) rather than returning the cached client.
The client itself carries no data relevant to the model, so it is `Unit`. -/
structure GetClientResult where
  state : Option Unit
  client : Option Unit
  attempted : Bool
deriving DecidableEq, Repr

/-- Embedding of `get_redis_client`.  The first argument is the current value of
the module-global `_redis_client` (initially `None` = `none`); the second is the
outcome of the connection attempt, used only when the global is unset.

```python
if _redis_client is not None:
    return _redis_client
try:
    _redis_client = redis.Redis.from_url(settings.redis_url)
    _redis_client.ping()
    return _redis_client
except Exception:
    _redis_client = None
    return None
``` -/
def get_redis_client : Option Unit → ConnOutcome → GetClientResult
  | some c, _ => { state := some c, client := some c, attempted := false }
  | none, .success => { state := some (), client := some (), attempted := true }
  | none, .failure => { state := none, client := none, attempted := true }

/-- The namespaced Redis key: `f"netrecon:rl:{identifier}"`. -/
def rate_limit_key (identifier : String) : String :=
  "netrecon:rl:" ++ identifier

/-- The outcomes of the (up to three) Redis operations one `check_rate_limit`
call can issue: `INCR` (returns the new integer value), `EXPIRE` (returns a
boolean status), `TTL` (returns seconds remaining, or no value). -/
structure StoreOps where
  incr : Res Int
  expire : Res Bool
  ttl : Res (Option Int)
deriving DecidableEq, Repr

/-- Trace of the external calls a `check_rate_limit` call issues, used to state
"no store contact" and "expiry set exactly on first hit" properties. -/
inductive StoreEvent where
  | connectAttempt
  | incrOp (key : String)
  | expireOp (key : String) (seconds : Int)
  | ttlOp (key : String)
deriving DecidableEq, Repr

/-- The decision the count dictates, i.e. the two branches after the
first-hit-expiry step of `check_rate_limit`:

```python
if current > limit:
    ttl = client.ttl(key)
    retry_after = ttl if ttl is not None and ttl > 0 else window
    return RateLimitResult(allowed=False, retry_after=int(retry_after), remaining=0)
remaining = max(limit - current, 0)
return RateLimitResult(allowed=True, retry_after=None, remaining=remaining)
```

A raised exception in the `TTL` read escapes to the caller (`Res.exn`), which
`check_rate_limit` turns into the fail-open result at its own boundary. -/
def decideResult (limit window current : Int) (ttlRes : Res (Option Int)) :
    Res RateLimitResult :=
  if limit < current then
    match ttlRes with
    | .exn => .exn
    | .ok ttl =>
      .ok { allowed := false
            retry_after := some (match ttl with
              | some t => if 0 < t then t else window
              | none => window)
            remaining := some 0 }
  else
    .ok { allowed := true, retry_after := none,
          remaining := some (max (limit - current) 0) }

/-- The store events the post-expiry part of `check_rate_limit` issues: the
`TTL` read happens exactly in the over-limit branch (issued even when it then
raises). -/
def decideEvents (key : String) (limit current : Int) : List StoreEvent :=
  if limit < current then [.ttlOp key] else []

/-- What one `check_rate_limit` call produces: the returned `RateLimitResult`,
the new value of the module-global `_redis_client`, and the trace of external
calls issued. -/
structure CheckOutcome where
  result : RateLimitResult
  state : Option Unit
  events : List StoreEvent
deriving DecidableEq, Repr

/-- Embedding of `check_rate_limit`.  `st` is the current value of the
module-global `_redis_client`; `co` and `ops` are the oracles for the
connection attempt and the three Redis operations.  Any `Res.exn` outcome of an
issued operation flows to the function's `except Exception` handler, which
returns the fail-open result. -/
def check_rate_limit (s : Settings) (identifier : String) (st : Option Unit)
    (co : ConnOutcome) (ops : StoreOps) : CheckOutcome :=
  if s.rate_limit_enabled = false then
    { result := failOpenResult, state := st, events := [] }
  else
    match get_redis_client st co with
    | { state := st', client := none, attempted := att } =>
      { result := failOpenResult, state := st',
        events := if att then [.connectAttempt] else [] }
    | { state := st', client := some _, attempted := att } =>
      let limit := s.rate_limit_requests_per_window
      let window := s.rate_limit_window_seconds
      let key := rate_limit_key identifier
      let evConn : List StoreEvent := if att then [.connectAttempt] else []
      match ops.incr with
      | .exn =>
        { result := failOpenResult, state := st', events := evConn ++ [.incrOp key] }
      | .ok current =>
        if current = 1 then
          match ops.expire with
          | .exn =>
            { result := failOpenResult, state := st',
              events := evConn ++ [.incrOp key, .expireOp key window] }
          | .ok _ =>
            match decideResult limit window current ops.ttl with
            | .exn =>
              { result := failOpenResult, state := st',
                events := evConn ++ [.incrOp key, .expireOp key window]
                  ++ decideEvents key limit current }
            | .ok r =>
              { result := r, state := st',
                events := evConn ++ [.incrOp key, .expireOp key window]
                  ++ decideEvents key limit current }
        else
          match decideResult limit window current ops.ttl with
          | .exn =>
            { result := failOpenResult, state := st',
              events := evConn ++ [.incrOp key] ++ decideEvents key limit current }
          | .ok r =>
            { result := r, state := st',
              events := evConn ++ [.incrOp key] ++ decideEvents key limit current }

/-- True when some Redis operation actually issued by the call raises: the
`INCR` raises; or `INCR` returned 1 and the `EXPIRE` raises; or the reached
over-limit branch's `TTL` read raises. -/
def reachedStoreError (limit : Int) (ops : StoreOps) : Bool :=
  match ops.incr with
  | .exn => true
  | .ok current =>
    if current = 1 ∧ ops.expire.isExn then true
    else if limit < current then ops.ttl.isExn
    else false


end NetRecon

namespace GeoIP

/-- Which kind of address `ipaddress.ip_address` parsed: `IPv4Address` or
`IPv6Address`. -/
inductive IpKind where
  | v4
  | v6
deriving DecidableEq, Repr

/-- The fields of a geoip2 continent record the resolver reads:
`names.get("en")` and `code`. -/
structure ContinentRec where
  name_en : Option String
  code : Option String
deriving DecidableEq, Repr

/-- The fields of a geoip2 country record the resolver reads. -/
structure CountryRec where
  name_en : Option String
  iso_code : Option String
  is_in_european_union : Option Bool
deriving DecidableEq, Repr

/-- The fields of `city.subdivisions.most_specific` the resolver reads;
`names_truthy` models the Python truthiness test `if region and region.names`
on the record's `names` mapping. -/
structure SubdivisionRec where
  names_truthy : Bool
  name_en : Option String
  iso_code : Option String
deriving DecidableEq, Repr

/-- The `city.city` record: only `names.get("en")` is read. -/
structure CityNameRec where
  name_en : Option String
deriving DecidableEq, Repr

/-- The `city.postal` record: only `code` is read. -/
structure PostalRec where
  code : Option String
deriving DecidableEq, Repr

/-- The parts of a geoip2 City response the resolver reads.  A record that is
Python-falsy at a guarded access (`if city.continent`, etc.) is modelled as
`none`. -/
structure CityRecord where
  continent : Option ContinentRec
  country : Option CountryRec
  region : Option SubdivisionRec
  city_rec : Option CityNameRec
  latitude : Option Float
  longitude : Option Float
  time_zone : Option String
  postal : Option PostalRec

/-- Outcome of `city_reader.city(ip)`: a record, an `AddressNotFoundError`, or
any other exception (whose string rendering is `msg`). -/
inductive CityLookup where
  | found (rec : CityRecord)
  | notFound
  | err (msg : String)

/-- The parts of a geoip2 ASN response `_lookup_connection` reads. -/
structure AsnRecord where
  autonomous_system_number : Option Int
  autonomous_system_organization : Option String
  network : String
deriving DecidableEq, Repr

/-- Outcome of `asn_reader.asn(ip)`: a record, an `AddressNotFoundError`, or
any other exception. -/
inductive AsnLookup where
  | found (rec : AsnRecord)
  | notFound
  | err
deriving DecidableEq, Repr

/-- The `"flag"` entry injected from country metadata. -/
structure FlagRec where
  emoji : Option String
  svg : Option String
  png : Option String
deriving DecidableEq, Repr

/-- The `"connection"` entry built from an ASN record. -/
structure ConnectionRec where
  asn : Option Int
  org : Option String
  isp : Option String
  route : String
deriving DecidableEq, Repr

/-- One entry of the optional `country_meta.json` table.  A `"flag"` value that
is Python-falsy (absent, null or an empty object) is modelled as `none`. -/
structure CountryMeta where
  calling_code : Option String
  capital : Option String
  borders : Option (List String)
  flag : Option FlagRec
deriving DecidableEq, Repr

/-- The result dictionary `lookup_ip` builds on a successful city lookup. -/
structure GeoResult where
  ip : String
  success : Bool
  type_ : String
  continent : Option String
  continent_code : Option String
  country : Option String
  country_code : Option String
  region : Option String
  region_code : Option String
  city : Option String
  latitude : Option Float
  longitude : Option Float
  is_eu : Option Bool
  postal : Option String
  calling_code : Option String
  capital : Option String
  borders : Option (List String)
  flag : Option FlagRec
  connection : Option ConnectionRec
  timezone : Option String

/-- Trace of database reader contacts made by one `lookup_ip` call. -/
inductive DbEvent where
  | cityLookup
  | asnLookup
deriving DecidableEq, Repr

/-- What one `lookup_ip` call produces: the `(result, error)` pair the Python
function returns, plus the trace of database contacts. -/
structure LookupOutcome where
  result : Option GeoResult
  error : Option String
  trace : List DbEvent

/-- Embedding of `_lookup_connection`: builds the connection entry from the ASN
record, returning `None` on `AddressNotFoundError` or any other exception. -/
def lookup_connection : AsnLookup → Option ConnectionRec
  | .found a =>
    some { asn := a.autonomous_system_number
           org := a.autonomous_system_organization
           isp := a.autonomous_system_organization
           route := a.network }
  | .notFound => none
  | .err => none

/-- The `result` dictionary as first assembled from the city record (before
metadata injection and ASN resolution), field by field from the source. -/
def build_base_result (ip : String) (kind : IpKind) (c : CityRecord) : GeoResult :=
  { ip := ip
    success := true
    type_ := if kind = IpKind.v4 then "ipv4" else "ipv6"
    continent := match c.continent with | some k => k.name_en | none => none
    continent_code := match c.continent with | some k => k.code | none => none
    country := match c.country with | some k => k.name_en | none => none
    country_code := match c.country with | some k => k.iso_code | none => none
    region := match c.region with
      | some r => if r.names_truthy then r.name_en else none
      | none => none
    region_code := match c.region with | some r => r.iso_code | none => none
    city := match c.city_rec with | some k => k.name_en | none => none
    latitude := c.latitude
    longitude := c.longitude
    is_eu := match c.country with | some k => k.is_in_european_union | none => none
    postal := match c.postal with | some p => p.code | none => none
    calling_code := none
    capital := none
    borders := none
    flag := none
    connection := none
    timezone := c.time_zone }

/-- Embedding of the country-metadata injection block: `if cc and cc in
COUNTRY_META` (an empty-string country code is Python-falsy and skips the
block), then copy `calling_code`, `capital`, `borders`, and build `flag` when
the flag entry is truthy. -/
def apply_country_meta (meta : List (String × CountryMeta)) (r : GeoResult) :
    GeoResult :=
  match r.country_code with
  | none => r
  | some cc =>
    if cc = "" then r
    else
      match meta.lookup cc with
      | none => r
      | some m =>
        let r1 := { r with calling_code := m.calling_code, capital := m.capital,
                           borders := m.borders }
        match m.flag with
        | none => r1
        | some fm =>
          { r1 with flag := some { emoji := fm.emoji, svg := fm.svg, png := fm.png } }

/-- Embedding of `lookup_ip`.  `parse` is the outcome of
`ipaddress.ip_address(ip)` (`none` models the `ValueError` on an invalid
address); `cityRes` and `asnRes` are the database-reader oracles; `meta` models
the loaded `COUNTRY_META` table. -/
def lookup_ip (ip : String) (parse : Option IpKind) (cityRes : CityLookup)
    (asnRes : AsnLookup) (meta : List (String × CountryMeta)) : LookupOutcome :=
  match parse with
  | none => { result := none, error := some "invalid_ip", trace := [] }
  | some kind =>
    match cityRes with
    | .notFound =>
      { result := none, error := some "not_found", trace := [.cityLookup] }
    | .err msg =>
      { result := none, error := some ("lookup_error:" ++ msg),
        trace := [.cityLookup] }
    | .found c =>
      let base := apply_country_meta meta (build_base_result ip kind c)
      let result := match lookup_connection asnRes with
        | some conn => { base with connection := some conn }
        | none => base
      { result := some result, error := none, trace := [.cityLookup, .asnLookup] }

end GeoIP

namespace NetRecon

lemma get_redis_client_some (u : Unit) (co : ConnOutcome) :
    get_redis_client (some u) co =
      { state := some u, client := some u, attempted := false } := by
  cases u; rfl

lemma check_result_of_client_some (s : Settings) (identifier : String)
    (st : Option Unit) (co : ConnOutcome) (ops : StoreOps)
    (hen : s.rate_limit_enabled = true)
    (hcl : (get_redis_client st co).client = some ()) :
    (check_rate_limit s identifier st co ops).result =
      match ops.incr with
      | .exn => failOpenResult
      | .ok current =>
        if current = 1 ∧ ops.expire.isExn then failOpenResult
        else
          match decideResult s.rate_limit_requests_per_window
              s.rate_limit_window_seconds current ops.ttl with
          | .exn => failOpenResult
          | .ok r => r := by
  have hmain : ∀ att : Bool,
      get_redis_client st co = { state := some (), client := some (), attempted := att } →
      (check_rate_limit s identifier st co ops).result =
        match ops.incr with
        | .exn => failOpenResult
        | .ok current =>
          if current = 1 ∧ ops.expire.isExn then failOpenResult
          else
            match decideResult s.rate_limit_requests_per_window
                s.rate_limit_window_seconds current ops.ttl with
            | .exn => failOpenResult
            | .ok r => r := by
    intro att hg
    simp only [check_rate_limit, hen, Bool.true_eq_false, if_false, hg]
    cases hi : ops.incr with
    | exn => rfl
    | ok current =>
      by_cases hc : current = 1
      · subst hc
        cases he : ops.expire with
        | exn => simp [he, Res.isExn]
        | ok b =>
          simp only [Res.isExn, he, and_false, if_false]
          cases hd : decideResult s.rate_limit_requests_per_window
              s.rate_limit_window_seconds 1 ops.ttl <;> simp
      · simp only [hc, false_and, if_false, if_neg hc]
        cases hd : decideResult s.rate_limit_requests_per_window
            s.rate_limit_window_seconds current ops.ttl <;> simp
  cases st with
  | some u =>
    cases u
    exact hmain false (get_redis_client_some () co)
  | none =>
    cases co with
    | success => exact hmain true rfl
    | failure => simp [get_redis_client] at hcl

lemma check_events_of_client_some (s : Settings) (identifier : String)
    (st : Option Unit) (co : ConnOutcome) (ops : StoreOps)
    (hen : s.rate_limit_enabled = true)
    (hcl : (get_redis_client st co).client = some ()) :
    (check_rate_limit s identifier st co ops).events =
      (if (get_redis_client st co).attempted then [StoreEvent.connectAttempt] else [])
        ++
      match ops.incr with
      | .exn => [.incrOp (rate_limit_key identifier)]
      | .ok current =>
        if current = 1 then
          [.incrOp (rate_limit_key identifier),
           .expireOp (rate_limit_key identifier) s.rate_limit_window_seconds]
            ++ (if ops.expire.isExn then []
                else decideEvents (rate_limit_key identifier)
                  s.rate_limit_requests_per_window current)
        else
          [.incrOp (rate_limit_key identifier)]
            ++ decideEvents (rate_limit_key identifier)
                s.rate_limit_requests_per_window current := by
  have hmain : ∀ att : Bool,
      get_redis_client st co = { state := some (), client := some (), attempted := att } →
      (check_rate_limit s identifier st co ops).events =
        (if att then [StoreEvent.connectAttempt] else [])
          ++
        match ops.incr with
        | .exn => [.incrOp (rate_limit_key identifier)]
        | .ok current =>
          if current = 1 then
            [.incrOp (rate_limit_key identifier),
             .expireOp (rate_limit_key identifier) s.rate_limit_window_seconds]
              ++ (if ops.expire.isExn then []
                  else decideEvents (rate_limit_key identifier)
                    s.rate_limit_requests_per_window current)
          else
            [.incrOp (rate_limit_key identifier)]
              ++ decideEvents (rate_limit_key identifier)
                  s.rate_limit_requests_per_window current := by
    intro att hg
    simp only [check_rate_limit, hen, Bool.true_eq_false, if_false, hg]
    cases hi : ops.incr with
    | exn => rfl
    | ok current =>
      by_cases hc : current = 1
      · subst hc
        cases he : ops.expire with
        | exn => simp [Res.isExn]
        | ok b =>
          simp only [Res.isExn, if_false]
          cases hd : decideResult s.rate_limit_requests_per_window
              s.rate_limit_window_seconds 1 ops.ttl <;> simp
      · simp only [if_neg hc]
        cases hd : decideResult s.rate_limit_requests_per_window
            s.rate_limit_window_seconds current ops.ttl <;> simp
  cases st with
  | some u =>
    cases u
    rw [hmain false (get_redis_client_some () co), get_redis_client_some () co]
  | none =>
    cases co with
    | success => rw [hmain true rfl]; rfl
    | failure => simp [get_redis_client] at hcl

lemma check_disabled_eq (s : Settings) (identifier : String) (st : Option Unit)
    (co : ConnOutcome) (ops : StoreOps) (hdis : s.rate_limit_enabled = false) :
    check_rate_limit s identifier st co ops =
      { result := failOpenResult, state := st, events := [] } := by
  simp [check_rate_limit, hdis]

lemma check_client_none_eq (s : Settings) (identifier : String) (st : Option Unit)
    (co : ConnOutcome) (ops : StoreOps) (hen : s.rate_limit_enabled = true)
    (hcl : (get_redis_client st co).client = none) :
    check_rate_limit s identifier st co ops =
      { result := failOpenResult, state := none,
        events := [StoreEvent.connectAttempt] } := by
  cases st with
  | some u => cases u; rw [get_redis_client_some () co] at hcl; cases hcl
  | none =>
    cases co with
    | success => simp [get_redis_client] at hcl
    | failure => simp [check_rate_limit, get_redis_client, hen]

/-- C7: if rate limiting is disabled by configuration, `check_rate_limit`
returns allowed with no retry_after and no remaining, contacts neither the
connection machinery nor the store (empty event trace), and leaves the cached
client unchanged — for any identifier and any number of calls. -/
theorem check_rate_limit_disabled_short_circuit (s : Settings) (identifier : String)
    (st : Option Unit) (co : ConnOutcome) (ops : StoreOps)
    (hdis : s.rate_limit_enabled = false) :
    check_rate_limit s identifier st co ops =
      { result := failOpenResult, state := st, events := [] } :=
  check_disabled_eq s identifier st co ops hdis

theorem check_rate_limit_disabled_short_circuit_witness :
    check_rate_limit ⟨false, 5, 60, "redis:"⟩ "1.2.3.4" none ConnOutcome.failure
        ⟨Res.ok 1, Res.ok true, Res.ok (some 30)⟩ =
      { result := failOpenResult, state := none, events := [] } :=
  check_rate_limit_disabled_short_circuit _ "1.2.3.4" none ConnOutcome.failure _ rfl

/-- C8: when the connection getter returns no client (the failure marker),
`check_rate_limit` fails open — allowed, no retry_after, no remaining — and the
only external event of the call is the connection attempt itself: no increment,
expiry or ttl operation is issued. -/
theorem check_rate_limit_fail_open_unavailable (s : Settings) (identifier : String)
    (st : Option Unit) (co : ConnOutcome) (ops : StoreOps)
    (hen : s.rate_limit_enabled = true)
    (hcl : (get_redis_client st co).client = none) :
    (check_rate_limit s identifier st co ops).result = failOpenResult ∧
    (check_rate_limit s identifier st co ops).events = [StoreEvent.connectAttempt] := by
  rw [check_client_none_eq s identifier st co ops hen hcl]
  exact ⟨rfl, rfl⟩

/-- C1: when the increment returns `current > limit` (and the expiry and ttl
calls return rather than raise), `check_rate_limit` denies the request with
`remaining = 0`, and `retry_after` is the store-reported ttl when that is a
positive number, and the full configured window length when the store reports
no ttl or a non-positive value. -/
theorem check_rate_limit_over_limit (s : Settings) (identifier : String)
    (st : Option Unit) (co : ConnOutcome) (ops : StoreOps)
    (current : Int) (b : Bool) (t : Option Int)
    (hen : s.rate_limit_enabled = true)
    (hcl : (get_redis_client st co).client = some ())
    (hincr : ops.incr = Res.ok current)
    (hexp : ops.expire = Res.ok b)
    (httl : ops.ttl = Res.ok t)
    (hover : s.rate_limit_requests_per_window < current) :
    (check_rate_limit s identifier st co ops).result.allowed = false ∧
    (check_rate_limit s identifier st co ops).result.remaining = some 0 ∧
    (∀ v, t = some v → 0 < v →
      (check_rate_limit s identifier st co ops).result.retry_after = some v) ∧
    ((∀ v, t = some v → v ≤ 0) →
      (check_rate_limit s identifier st co ops).result.retry_after =
        some s.rate_limit_window_seconds) := by
  rw [check_result_of_client_some s identifier st co ops hen hcl]
  simp only [hincr, hexp, Res.isExn, Bool.false_eq_true, and_false, if_false,
    decideResult, if_pos hover, httl]
  refine ⟨trivial, trivial, ?_, ?_⟩
  · intro v hv hpos
    subst hv
    simp [if_pos hpos]
  · intro hnp
    cases t with
    | none => rfl
    | some v =>
      have : ¬ 0 < v := by have := hnp v rfl; omega
      simp [if_neg this]

theorem check_rate_limit_over_limit_witness :
    (check_rate_limit ⟨true, 5, 60, "redis:"⟩ "1.2.3.4" (some ()) ConnOutcome.success
        ⟨Res.ok 6, Res.ok true, Res.ok (some 30)⟩).result.allowed = false ∧
    (check_rate_limit ⟨true, 5, 60, "redis:"⟩ "1.2.3.4" (some ()) ConnOutcome.success
        ⟨Res.ok 6, Res.ok true, Res.ok (some 30)⟩).result.remaining = some 0 ∧
    (check_rate_limit ⟨true, 5, 60, "redis:"⟩ "1.2.3.4" (some ()) ConnOutcome.success
        ⟨Res.ok 6, Res.ok true, Res.ok (some 30)⟩).result.retry_after = some 30 := by
  have h := check_rate_limit_over_limit ⟨true, 5, 60, "redis:"⟩ "1.2.3.4" (some ())
    ConnOutcome.success ⟨Res.ok 6, Res.ok true, Res.ok (some 30)⟩ 6 true (some 30)
    rfl rfl rfl rfl rfl (by decide)
  exact ⟨h.1, h.2.1, h.2.2.1 30 rfl (by decide)⟩

/-- C2: when the increment returns `current ≤ limit` (and the expiry call
returns rather than raises), `check_rate_limit` allows the request with no
retry_after, and `remaining` is `limit - current` floored at 0, which under
this branch's condition equals `limit - current`. -/
theorem check_rate_limit_under_limit (s : Settings) (identifier : String)
    (st : Option Unit) (co : ConnOutcome) (ops : StoreOps)
    (current : Int) (b : Bool)
    (hen : s.rate_limit_enabled = true)
    (hcl : (get_redis_client st co).client = some ())
    (hincr : ops.incr = Res.ok current)
    (hexp : ops.expire = Res.ok b)
    (hle : current ≤ s.rate_limit_requests_per_window) :
    (check_rate_limit s identifier st co ops).result =
      { allowed := true, retry_after := none,
        remaining := some (max (s.rate_limit_requests_per_window - current) 0) } ∧
    max (s.rate_limit_requests_per_window - current) 0 =
      s.rate_limit_requests_per_window - current := by
  rw [check_result_of_client_some s identifier st co ops hen hcl]
  simp only [hincr, hexp, Res.isExn, Bool.false_eq_true, and_false, if_false,
    decideResult]
  rw [if_neg (by omega)]
  exact ⟨rfl, by omega⟩

theorem check_rate_limit_under_limit_witness :
    (check_rate_limit ⟨true, 5, 60, "redis:"⟩ "1.2.3.4" (some ()) ConnOutcome.success
        ⟨Res.ok 2, Res.ok false, Res.ok none⟩).result =
      { allowed := true, retry_after := none, remaining := some 3 } := by
  have h := check_rate_limit_under_limit ⟨true, 5, 60, "redis:"⟩ "1.2.3.4" (some ())
    ConnOutcome.success ⟨Res.ok 2, Res.ok false, Res.ok none⟩ 2 false
    rfl rfl rfl rfl (by decide)
  rw [h.1]
  rfl

/-- C4: `check_rate_limit` issues the set-expiry call — with the configured
window length, on the namespaced key — exactly when the increment returns 1;
for any other increment value no expiry call is issued, so requests within an
existing window never reset or extend its ttl. -/
theorem check_rate_limit_expire_iff_first_hit (s : Settings) (identifier : String)
    (st : Option Unit) (co : ConnOutcome) (ops : StoreOps) (current : Int)
    (hen : s.rate_limit_enabled = true)
    (hcl : (get_redis_client st co).client = some ())
    (hincr : ops.incr = Res.ok current) :
    (StoreEvent.expireOp (rate_limit_key identifier) s.rate_limit_window_seconds
        ∈ (check_rate_limit s identifier st co ops).events ↔ current = 1) ∧
    (∀ k w, StoreEvent.expireOp k w ∈ (check_rate_limit s identifier st co ops).events →
      current = 1 ∧ k = rate_limit_key identifier ∧
        w = s.rate_limit_window_seconds) := by
  rw [check_events_of_client_some s identifier st co ops hen hcl, hincr]
  unfold decideEvents
  cases hatt : (get_redis_client st co).attempted <;>
    by_cases hc : current = 1 <;>
      cases he : ops.expire <;>
        by_cases hov : s.rate_limit_requests_per_window < current <;>
          simp_all [Res.isExn]

theorem check_rate_limit_expire_iff_first_hit_witness :
    StoreEvent.expireOp (rate_limit_key "1.2.3.4") 60
      ∈ (check_rate_limit ⟨true, 5, 60, "redis:"⟩ "1.2.3.4" (some ())
          ConnOutcome.success ⟨Res.ok 1, Res.ok true, Res.ok none⟩).events :=
  (check_rate_limit_expire_iff_first_hit ⟨true, 5, 60, "redis:"⟩ "1.2.3.4" (some ())
    ConnOutcome.success ⟨Res.ok 1, Res.ok true, Res.ok none⟩ 1 rfl rfl rfl).1.mpr rfl

/-- C5: when the set-expiry call returns a failure status (rather than
raising), the request is still evaluated against the limit: the result is
identical to the one produced when the expiry call reports success, and it is
exactly the decision the incremented count dictates (the over/under-limit
branch logic). -/
theorem check_rate_limit_expire_status_ignored (s : Settings) (identifier : String)
    (st : Option Unit) (co : ConnOutcome) (ops : StoreOps)
    (current : Int) (t : Option Int)
    (hen : s.rate_limit_enabled = true)
    (hcl : (get_redis_client st co).client = some ())
    (hincr : ops.incr = Res.ok current)
    (httl : ops.ttl = Res.ok t) :
    (check_rate_limit s identifier st co
        { ops with expire := Res.ok false }).result =
      (check_rate_limit s identifier st co
        { ops with expire := Res.ok true }).result ∧
    decideResult s.rate_limit_requests_per_window s.rate_limit_window_seconds
        current (Res.ok t) =
      Res.ok (check_rate_limit s identifier st co
        { ops with expire := Res.ok false }).result := by
  have hkey : ∀ c : Bool,
      (check_rate_limit s identifier st co { ops with expire := Res.ok c }).result =
        match decideResult s.rate_limit_requests_per_window
            s.rate_limit_window_seconds current (Res.ok t) with
        | .exn => failOpenResult
        | .ok r => r := by
    intro c
    rw [check_result_of_client_some s identifier st co { ops with expire := Res.ok c }
      hen hcl]
    simp [hincr, httl, Res.isExn]
  refine ⟨by rw [hkey false, hkey true], ?_⟩
  rw [hkey false]
  by_cases hov : s.rate_limit_requests_per_window < current
  · simp [decideResult, if_pos hov]
  · simp [decideResult, if_neg hov]

theorem check_rate_limit_expire_status_ignored_witness :
    (check_rate_limit ⟨true, 5, 60, "redis:"⟩ "1.2.3.4" (some ()) ConnOutcome.success
        ⟨Res.ok 1, Res.ok false, Res.ok (some 10)⟩).result =
      (check_rate_limit ⟨true, 5, 60, "redis:"⟩ "1.2.3.4" (some ()) ConnOutcome.success
        ⟨Res.ok 1, Res.ok true, Res.ok (some 10)⟩).result := by
  have h := check_rate_limit_expire_status_ignored ⟨true, 5, 60, "redis:"⟩ "1.2.3.4"
    (some ()) ConnOutcome.success ⟨Res.ok 1, Res.ok false, Res.ok (some 10)⟩ 1 (some 10)
    rfl rfl rfl rfl
  exact h.1

/-- C6: whenever a Redis operation actually issued by the call raises — the
increment itself, the first-hit expiry call, or the over-limit ttl read — the
error is caught at the `check_rate_limit` boundary and the call returns the
fail-open result (allowed, no retry_after, no remaining); no store error ever
propagates to the caller, who always receives a `RateLimitResult`. -/
theorem check_rate_limit_fail_open_on_store_error (s : Settings) (identifier : String)
    (st : Option Unit) (co : ConnOutcome) (ops : StoreOps)
    (hen : s.rate_limit_enabled = true)
    (herr : reachedStoreError s.rate_limit_requests_per_window ops = true) :
    (check_rate_limit s identifier st co ops).result = failOpenResult := by
  cases hcl : (get_redis_client st co).client with
  | none => rw [check_client_none_eq s identifier st co ops hen hcl]
  | some u =>
    cases u
    rw [check_result_of_client_some s identifier st co ops hen hcl]
    unfold reachedStoreError at herr
    cases hi : ops.incr with
    | exn => rfl
    | ok current =>
      rw [hi] at herr
      simp only [] at herr ⊢
      by_cases hce : current = 1 ∧ ops.expire.isExn = true
      · rw [if_pos hce]
      · rw [if_neg hce] at herr ⊢
        by_cases hov : s.rate_limit_requests_per_window < current
        · rw [if_pos hov] at herr
          cases ht : ops.ttl with
          | exn => simp [decideResult, if_pos hov, ht]
          | ok t => rw [ht] at herr; simp [Res.isExn] at herr
        · rw [if_neg hov] at herr
          cases herr

theorem check_rate_limit_fail_open_on_store_error_witness :
    (check_rate_limit ⟨true, 5, 60, "redis:"⟩ "1.2.3.4" (some ()) ConnOutcome.success
        ⟨Res.exn, Res.ok true, Res.ok (some 30)⟩).result = failOpenResult :=
  check_rate_limit_fail_open_on_store_error ⟨true, 5, 60, "redis:"⟩ "1.2.3.4"
    (some ()) ConnOutcome.success ⟨Res.exn, Res.ok true, Res.ok (some 30)⟩ rfl rfl

theorem check_rate_limit_fail_open_unavailable_witness :
    (check_rate_limit ⟨true, 5, 60, "redis:"⟩ "10.0.0.7" none ConnOutcome.failure
        ⟨Res.ok 1, Res.ok true, Res.ok (some 30)⟩).result = failOpenResult ∧
    (check_rate_limit ⟨true, 5, 60, "redis:"⟩ "10.0.0.7" none ConnOutcome.failure
        ⟨Res.ok 1, Res.ok true, Res.ok (some 30)⟩).events = [StoreEvent.connectAttempt] :=
  check_rate_limit_fail_open_unavailable _ "10.0.0.7" none ConnOutcome.failure _ rfl rfl

/-- C9: shape invariant of every result `check_rate_limit` returns: a denied
result carries `remaining = 0` and a present `retry_after` that is positive
whenever the configured window length is positive; an allowed result never
carries a `retry_after`; and `remaining` is absent exactly when the decision
was reached without a completed store evaluation — limiting disabled, no
store client, or a raised store operation. -/
theorem check_rate_limit_result_shape (s : Settings) (identifier : String)
    (st : Option Unit) (co : ConnOutcome) (ops : StoreOps) :
    ((check_rate_limit s identifier st co ops).result.allowed = false →
      (check_rate_limit s identifier st co ops).result.remaining = some 0 ∧
      ∃ ra, (check_rate_limit s identifier st co ops).result.retry_after = some ra ∧
        (0 < s.rate_limit_window_seconds → 0 < ra)) ∧
    ((check_rate_limit s identifier st co ops).result.allowed = true →
      (check_rate_limit s identifier st co ops).result.retry_after = none) ∧
    ((check_rate_limit s identifier st co ops).result.remaining = none ↔
      (s.rate_limit_enabled = false ∨ (get_redis_client st co).client = none ∨
        reachedStoreError s.rate_limit_requests_per_window ops = true)) := by
  by_cases hen : s.rate_limit_enabled = true
  · cases hcl : (get_redis_client st co).client with
    | none =>
      rw [check_client_none_eq s identifier st co ops hen hcl]
      simp [failOpenResult]
    | some u =>
      cases u
      rw [check_result_of_client_some s identifier st co ops hen hcl]
      unfold reachedStoreError
      cases hi : ops.incr with
      | exn => simp [failOpenResult, hen]
      | ok current =>
        simp only []
        by_cases hce : current = 1 ∧ ops.expire.isExn = true
        · simp [if_pos hce, failOpenResult, hen]
        · simp only [if_neg hce]
          by_cases hov : s.rate_limit_requests_per_window < current
          · simp only [decideResult, if_pos hov]
            cases ht : ops.ttl with
            | exn => simp [failOpenResult, hen, Res.isExn]
            | ok t =>
              simp only [Res.isExn]
              cases t with
              | none => simp [hen]
              | some v =>
                by_cases hv : 0 < v
                · simp [hen, hv]
                · simp [hen, if_neg hv]
          · simp only [decideResult, if_neg hov]
            simp [hen, hov]
  · have hf : s.rate_limit_enabled = false := by
      cases h : s.rate_limit_enabled
      · rfl
      · exact absurd h hen
    rw [check_disabled_eq s identifier st co ops hf]
    simp [failOpenResult, hf]

theorem check_rate_limit_result_shape_witness :
    (check_rate_limit ⟨true, 5, 60, "redis:"⟩ "1.2.3.4" (some ()) ConnOutcome.success
        ⟨Res.ok 6, Res.ok true, Res.ok none⟩).result.remaining = some 0 := by
  have h := check_rate_limit_result_shape ⟨true, 5, 60, "redis:"⟩ "1.2.3.4" (some ())
    ConnOutcome.success ⟨Res.ok 6, Res.ok true, Res.ok none⟩
  exact (h.1 rfl).1

/-- C3 counterexample: after the first connection attempt fails,
`get_redis_client` leaves the module global at its uninitialized value, so the
next call attempts the connection again (`attempted = true`) and, when the
store is reachable again, obtains a client; a subsequent `check_rate_limit`
call can then deny a request.  This refutes both "every subsequent call fails
fast without retrying for the remainder of the process lifetime" and "once the
startup probe has failed, every subsequent check returns allowed=true". -/
theorem get_redis_client_no_failure_latch :
    (get_redis_client (get_redis_client none ConnOutcome.failure).state
        ConnOutcome.success).attempted = true ∧
    (get_redis_client (get_redis_client none ConnOutcome.failure).state
        ConnOutcome.success).client = some () ∧
    (check_rate_limit ⟨true, 0, 60, "redis:"⟩ "1.2.3.4"
        (get_redis_client none ConnOutcome.failure).state ConnOutcome.success
        ⟨Res.ok 1, Res.ok true, Res.ok (some 30)⟩).result.allowed = false := by
  decide

/-- C3 (amended): after a failed connection attempt no client is cached — the
module global is reset to the uninitialized value — so every subsequent call
to `get_redis_client` retries the connection; while the retries keep failing,
each `check_rate_limit` call fails open (allowed, no quota fields), and a
retry that succeeds yields a usable client again. -/
theorem get_redis_client_retries_after_failure (co : ConnOutcome) (s : Settings)
    (identifier : String) (ops : StoreOps)
    (hen : s.rate_limit_enabled = true) :
    (get_redis_client none ConnOutcome.failure).state = none ∧
    (get_redis_client none ConnOutcome.failure).client = none ∧
    (get_redis_client none co).attempted = true ∧
    (co = ConnOutcome.failure →
      (check_rate_limit s identifier
          (get_redis_client none ConnOutcome.failure).state co ops).result =
        failOpenResult) ∧
    (co = ConnOutcome.success → (get_redis_client none co).client = some ()) := by
  refine ⟨rfl, rfl, ?_, ?_, ?_⟩
  · cases co <;> rfl
  · intro hco
    subst hco
    exact congrArg CheckOutcome.result
      (check_client_none_eq s identifier none ConnOutcome.failure ops hen rfl)
  · intro hco
    subst hco
    rfl

theorem get_redis_client_retries_after_failure_witness :
    (get_redis_client none ConnOutcome.failure).state = none ∧
    (check_rate_limit ⟨true, 5, 60, "redis:"⟩ "1.2.3.4"
        (get_redis_client none ConnOutcome.failure).state ConnOutcome.failure
        ⟨Res.exn, Res.exn, Res.exn⟩).result = failOpenResult := by
  have h := get_redis_client_retries_after_failure ConnOutcome.failure
    ⟨true, 5, 60, "redis:"⟩ "1.2.3.4" ⟨Res.exn, Res.exn, Res.exn⟩ rfl
  exact ⟨h.1, h.2.2.2.1 rfl⟩

end NetRecon

namespace GeoIP

lemma apply_country_meta_connection (meta : List (String × CountryMeta))
    (r : GeoResult) : (apply_country_meta meta r).connection = r.connection := by
  unfold apply_country_meta
  cases hcc : r.country_code with
  | none => rfl
  | some cc =>
    simp only []
    by_cases he : cc = ""
    · simp [he]
    · simp only [if_neg he]
      cases hm : meta.lookup cc with
      | none => rfl
      | some m =>
        simp only []
        cases hf : m.flag <;> rfl

lemma lookup_connection_none_of_failure (asnRes : AsnLookup)
    (h : asnRes = AsnLookup.notFound ∨ asnRes = AsnLookup.err) :
    lookup_connection asnRes = none := by
  rcases h with h | h <;> subst h <;> rfl

/-- C10: `lookup_ip` always returns a `(result, error)` pair and never raises:
an unparsable address yields `(None, "invalid_ip")` with no database contact;
an address absent from the city database yields `(None, "not_found")`; any
other city-lookup error yields `(None, "lookup_error:...")`; a successful city
lookup yields a populated record with no error; and an ASN-lookup failure
never affects the error component — it only leaves the connection field
absent. -/
theorem lookup_ip_error_shape (ip : String) (parse : Option IpKind)
    (cityRes : CityLookup) (asnRes : AsnLookup)
    (meta : List (String × CountryMeta)) :
    (parse = none →
      (lookup_ip ip parse cityRes asnRes meta).result = none ∧
      (lookup_ip ip parse cityRes asnRes meta).error = some "invalid_ip" ∧
      (lookup_ip ip parse cityRes asnRes meta).trace = []) ∧
    (∀ kind, parse = some kind → cityRes = CityLookup.notFound →
      (lookup_ip ip parse cityRes asnRes meta).result = none ∧
      (lookup_ip ip parse cityRes asnRes meta).error = some "not_found") ∧
    (∀ kind msg, parse = some kind → cityRes = CityLookup.err msg →
      (lookup_ip ip parse cityRes asnRes meta).result = none ∧
      (lookup_ip ip parse cityRes asnRes meta).error =
        some ("lookup_error:" ++ msg)) ∧
    (∀ kind c, parse = some kind → cityRes = CityLookup.found c →
      (∃ rec, (lookup_ip ip parse cityRes asnRes meta).result = some rec) ∧
      (lookup_ip ip parse cityRes asnRes meta).error = none) ∧
    (∀ kind c, parse = some kind → cityRes = CityLookup.found c →
      (asnRes = AsnLookup.notFound ∨ asnRes = AsnLookup.err) →
      ∀ rec, (lookup_ip ip parse cityRes asnRes meta).result = some rec →
        rec.connection = none) := by
  refine ⟨?_, ?_, ?_, ?_, ?_⟩
  · intro hp
    subst hp
    exact ⟨rfl, rfl, rfl⟩
  · intro kind hp hc
    subst hp; subst hc
    exact ⟨rfl, rfl⟩
  · intro kind msg hp hc
    subst hp; subst hc
    exact ⟨rfl, rfl⟩
  · intro kind c hp hc
    subst hp; subst hc
    exact ⟨⟨_, rfl⟩, rfl⟩
  · intro kind c hp hc hasn rec hrec
    subst hp; subst hc
    have hconn := lookup_connection_none_of_failure asnRes hasn
    have hres : (lookup_ip ip (some kind) (CityLookup.found c) asnRes meta).result =
        some (apply_country_meta meta (build_base_result ip kind c)) := by
      unfold lookup_ip
      simp only []
      rw [hconn]
    rw [hres] at hrec
    cases hrec
    rw [apply_country_meta_connection]
    rfl

theorem lookup_ip_error_shape_witness :
    (lookup_ip "not-an-ip" none CityLookup.notFound AsnLookup.err []).error =
      some "invalid_ip" ∧
    (lookup_ip "1.2.3.4" (some IpKind.v4)
        (CityLookup.found ⟨none, none, none, none, none, none, none, none⟩)
        AsnLookup.err []).error = none := by
  have h1 := lookup_ip_error_shape "not-an-ip" none CityLookup.notFound
    AsnLookup.err []
  have h2 := lookup_ip_error_shape "1.2.3.4" (some IpKind.v4)
    (CityLookup.found ⟨none, none, none, none, none, none, none, none⟩)
    AsnLookup.err []
  exact ⟨(h1.1 rfl).2.1, (h2.2.2.2.1 IpKind.v4 _ rfl rfl).2⟩

end GeoIP
